import Mathlib

/-!
Verification of the collaborative code-editing session service in
`src/module_2-2_hw/backend/app/main.py` (shallow embedding).

Connections (Python `WebSocket` objects) are modelled as natural numbers.
The monotonic clock is modelled as a natural number of time units.
The Python `dict` of the `SessionStore` is modelled as an association
list with (when needed) a no-duplicate-keys hypothesis, which the Python
dict guarantees.

Effects are made explicit: the outcome of each `await ws.send_text`
is given by a `sendOk : Conn → Bool` oracle; the outcome of the
subprocess spawned by `execute_code` is given by a `SpawnOutcome`
value; messages actually written to a connection are collected in an
event list.
-/

namespace Collab

/-- A connection handle (a Python `WebSocket` object identity). -/
abbrev Conn := Nat

/-- `INACTIVITY_TIMEOUT = 15 * 60` (main.py line 15), in seconds. -/
def INACTIVITY_TIMEOUT : Nat := 15 * 60

/-- `RUN_TIMEOUT = 10` (main.py line 16), in seconds. -/
def RUN_TIMEOUT : Nat := 10

/-- The `Session` dataclass (main.py lines 35-45). -/
structure Session where
  session_id : String
  language : String := "python"
  code : String := ""
  connections : List Conn := []
  last_active : Nat := 0
  ended : Bool := false
deriving Repr, DecidableEq

/-- `Session.touch` (main.py lines 44-45): refresh `last_active` to the
current monotonic time. -/
def Session.touch (s : Session) (now : Nat) : Session :=
  { s with last_active := now }

/-- The `sessions` dict of `SessionStore` (main.py line 50), as an
association list from session id to `Session`. -/
abbrev Store := List (String × Session)

/-- Dict lookup `self.sessions.get(session_id)`. -/
def Store.get? (store : Store) (sid : String) : Option Session :=
  match store with
  | [] => none
  | (k, s) :: rest => if k = sid then some s else Store.get? rest sid

/-- Dict removal `self.sessions.pop(session_id, None)` (drops every
binding of the key; a Python dict has at most one). -/
def Store.pop : Store → String → Store
  | [], _ => []
  | (k, s) :: rest, sid =>
    if k = sid then Store.pop rest sid else (k, s) :: Store.pop rest sid

/-- Dict update `self.sessions[sid] = s` for a key already present
(replaces the bound value in place). -/
def Store.set : Store → String → Session → Store
  | [], _, _ => []
  | (k, s) :: rest, sid, v =>
    if k = sid then (k, v) :: Store.set rest sid v
    else (k, s) :: Store.set rest sid v

/-- The result model `RunResult` (main.py lines 29-32). -/
structure RunResult where
  stdout : String
  stderr : String
  language : String
deriving Repr, DecidableEq

/-- Outcome of the subprocess machinery inside `execute_code`
(main.py lines 164-179): the spawn/communicate either completes within
the timeout with captured output, times out, fails with
`FileNotFoundError`, or fails with some other exception. -/
inductive SpawnOutcome where
  | completed (stdout stderr : String)
  | timedOut
  | fileNotFound
  | otherError (exc : String)
deriving Repr, DecidableEq

/-- `execute_code(language, code)` (main.py lines 156-179).  The
command construction and subprocess behaviour are abstracted by the
`outcome` oracle; the branch structure is the code's: unsupported
language returns before any spawn (so the result ignores `outcome`),
`asyncio.TimeoutError` yields "Execution timed out",
`FileNotFoundError` yields "Runtime not available for ...", any other
exception yields "Execution error: ...". -/
def execute_code (language code : String) (outcome : SpawnOutcome) : RunResult :=
  if language = "python" ∨ language = "javascript" then
    match outcome with
    | .completed out err => { stdout := out, stderr := err, language := language }
    | .timedOut => { stdout := "", stderr := "Execution timed out", language := language }
    | .fileNotFound =>
        { stdout := "", stderr := "Runtime not available for " ++ language, language := language }
    | .otherError exc =>
        { stdout := "", stderr := "Execution error: " ++ exc, language := language }
  else
    { stdout := "", stderr := "Unsupported language: " ++ language, language := language }

/-- Outbound server-to-client messages (the JSON dicts serialized at
main.py lines 75, 187, 195, 201, 205, 208-211, 216). -/
inductive OutMsg where
  | init (language code : String)
  | edit (code : String)
  | language (language : String)
  | runResult (stdout stderr language : String)
  | error (message : String)
  | ended (reason : String)
deriving Repr, DecidableEq

/-- The `for ws in session.connections` loop of `broadcast` (main.py
lines 145-151), in the run where no other task mutates the set during
the awaited sends (see `broadcastLive` for the interleaved run).
Returns the pairs (recipient, message) whose `send_text` succeeded, in
iteration order, and the `to_remove` list of connections whose send
raised. -/
def broadcastLoop (msg : OutMsg) (skip : Option Conn) (sendOk : Conn → Bool) :
    List Conn → List (Conn × OutMsg) × List Conn
  | [] => ([], [])
  | ws :: rest =>
    let r := broadcastLoop msg skip sendOk rest
    if some ws = skip then r
    else if sendOk ws then ((ws, msg) :: r.1, r.2)
    else (r.1, ws :: r.2)

/-- `broadcast(session, message, skip)` (main.py lines 142-153), in the
run with no concurrent mutation of the connection set: run the send
loop, then discard every connection in `to_remove` from the live set. -/
def broadcast (session : Session) (msg : OutMsg) (skip : Option Conn)
    (sendOk : Conn → Bool) : Session × List (Conn × OutMsg) :=
  let r := broadcastLoop msg skip sendOk session.connections
  ({ session with connections := session.connections.filter (fun ws => !(r.2.contains ws)) },
   r.1)

/-- `SessionStore.get_session` (main.py lines 60-64): raises
`HTTPException(404)` when the id is absent or the session is ended. -/
def get_session (store : Store) (sid : String) : Except String Session :=
  match store.get? sid with
  | none => .error "Session not found or expired"
  | some s => if s.ended then .error "Session not found or expired" else .ok s

/-- Result of `end_session`: the updated map, the final state of the
detached Session object when one was found (the Python object survives
through aliases after being popped: `ended = True`, connections
cleared), the `ended` notices actually written, and the connections
whose `close()` was reached.  A send failure skips that close and the
`except Exception: continue` moves on (main.py lines 76-81). -/
structure EndResult where
  store : Store
  endedSession : Option Session
  sent : List (Conn × OutMsg)
  closed : List Conn
deriving Repr, DecidableEq

/-- `SessionStore.end_session(session_id, reason)` (main.py lines
66-81).  No-op when the id is absent; otherwise marks the session
ended, captures and clears its connection set, pops the map entry,
then sends `ended{reason}` to each captured connection and closes it,
swallowing individual send/close failures. -/
def end_session (store : Store) (sid : String) (reason : String)
    (sendOk : Conn → Bool) : EndResult :=
  match store.get? sid with
  | none => { store := store, endedSession := none, sent := [], closed := [] }
  | some s =>
    let conns := s.connections
    { store := store.pop sid
      endedSession := some { s with ended := true, connections := [] }
      sent := (conns.filter sendOk).map (fun ws => (ws, OutMsg.ended reason))
      closed := conns.filter sendOk }

/-- Result of one reaper sweep: the updated map, the expired ids in
iteration order (the Python return value), and the final states of the
popped Session objects (each got `ended = True` at main.py line 92
before being popped; the mutation stays visible through aliases). -/
structure SweepResult where
  store : Store
  expired : List String
  retired : List (String × Session)
deriving Repr, DecidableEq

/-- `SessionStore.expire_stale_once` (main.py lines 83-94) at monotonic
time `now`: skip every session with a nonempty connection set; retire
(mark ended, pop, record the id) every connection-less session with
`now - last_active ≥ INACTIVITY_TIMEOUT`. -/
def expire_stale_once (now : Nat) : Store → SweepResult
  | [] => { store := [], expired := [], retired := [] }
  | (sid, s) :: rest =>
    let r := expire_stale_once now rest
    if !s.connections.isEmpty then
      { r with store := (sid, s) :: r.store }
    else if INACTIVITY_TIMEOUT ≤ now - s.last_active then
      { r with expired := sid :: r.expired,
               retired := (sid, { s with ended := true }) :: r.retired }
    else
      { r with store := (sid, s) :: r.store }

/-- The body of the `join_session` response (main.py line 139). -/
structure JoinResponse where
  session_id : String
  language : String
  code : String
deriving Repr, DecidableEq

/-- `join_session` endpoint (main.py lines 135-139): look up the
session (404 when absent/ended), `touch` it, and answer with its id,
language and code read after the touch.  The store is returned as well
because `touch` mutates the Session object held in the dict. -/
def join_session (store : Store) (sid : String) (now : Nat) :
    Except String (Store × JoinResponse) :=
  match get_session store sid with
  | .error e => .error e
  | .ok s =>
    let s' := s.touch now
    .ok (store.set sid s',
         { session_id := s'.session_id, language := s'.language, code := s'.code })

/-- A decoded JSON object payload as accessed through `payload.get`
(absent keys yield `none`).  Only the keys the endpoint reads are
modelled. -/
structure Payload where
  type : Option String := none
  code : Option String := none
  language : Option String := none
deriving Repr, DecidableEq

/-- One inbound text frame after `json.loads` (main.py lines 192-196):
either the text fails to decode (`JSONDecodeError`), or it decodes to
a non-object JSON value (list, string, number, bool, null) on which
`payload.get` raises `AttributeError`, or it decodes to an object. -/
inductive RawMsg where
  | invalid
  | nonObject
  | obj (p : Payload)
deriving Repr, DecidableEq

/-- Observable result of processing one inbound frame: the new state of
the Session object held by the handler, the new store, the messages
written, the connections closed, whether the receive loop proceeds to
the next frame, and whether the handler re-raised an exception. -/
structure StepResult where
  session : Session
  store : Store
  sent : List (Conn × OutMsg)
  closed : List Conn
  continueLoop : Bool
  raised : Bool
deriving Repr, DecidableEq

/-- One iteration of the `websocket_endpoint` receive loop (main.py
lines 189-223) for a frame `raw` already received on connection `ws`.
`session` is the handler reference to the session, aliasing the store
entry for `sid` (the model writes the mutated object back into the
store).  `session.touch()` runs before parsing (line 191).  The
`nonObject` case models `payload.get` raising `AttributeError` on a
non-dict, which the `except Exception` arm (lines 220-223) handles by
discarding the connection, touching the session and re-raising. -/
def handleMessage (store : Store) (sid : String) (session : Session) (ws : Conn)
    (raw : RawMsg) (sendOk : Conn → Bool) (outcome : SpawnOutcome) (now : Nat) :
    StepResult :=
  let session := session.touch now
  match raw with
  | .invalid =>
      { session := session, store := store.set sid session,
        sent := [(ws, .error "Invalid message")], closed := [],
        continueLoop := true, raised := false }
  | .nonObject =>
      let session := { session with connections := session.connections.erase ws }
      { session := session, store := store.set sid session,
        sent := [], closed := [], continueLoop := false, raised := true }
  | .obj p =>
    if p.type = some "edit" then
      let newCode := p.code.getD ""
      let session := { session with code := newCode }
      let r := broadcast session (.edit newCode) (some ws) sendOk
      { session := r.1, store := store.set sid r.1, sent := r.2, closed := [],
        continueLoop := true, raised := false }
    else if p.type = some "language" then
      let lang := p.language.getD session.language
      let session := { session with language := lang }
      let r := broadcast session (.language lang) (some ws) sendOk
      { session := r.1, store := store.set sid r.1, sent := r.2, closed := [],
        continueLoop := true, raised := false }
    else if p.type = some "run" then
      let result := execute_code session.language session.code outcome
      let r := broadcast session
        (.runResult result.stdout result.stderr result.language) none sendOk
      { session := r.1, store := store.set sid r.1, sent := r.2, closed := [],
        continueLoop := true, raised := false }
    else if p.type = some "end" then
      let r := end_session (store.set sid session) sid "ended by user" sendOk
      { session := r.endedSession.getD session, store := r.store,
        sent := r.sent, closed := r.closed, continueLoop := false, raised := false }
    else
      { session := session, store := store.set sid session,
        sent := [(ws, .error "Unknown message type")], closed := [],
        continueLoop := true, raised := false }

/-- A mutation of the connection set performed by another task while
`broadcast` is suspended in an awaited `send_text`: an attach (main.py
line 186), a detach (lines 218, 221, 225 or 153), or nothing. -/
inductive MutEvent where
  | add (c : Conn)
  | discard (c : Conn)
  | idle
deriving Repr, DecidableEq

/-- Apply one concurrent mutation to the live connection set
(set semantics: `add` of a member and `discard` of a non-member are
no-ops). -/
def applyEvent (conns : List Conn) : MutEvent → List Conn
  | .add c => if c ∈ conns then conns else conns ++ [c]
  | .discard c => conns.erase c
  | .idle => conns

/-- The `for ws in session.connections` loop of `broadcast` (main.py
lines 145-151) executed against the live set under a schedule of
concurrent mutations, one `MutEvent` firing during each awaited
`send_text`.  As in CPython, the set iterator records the set size at
creation and every later advance raises `RuntimeError` when the size
has changed; that raise happens at the `for` statement, outside the
`try` that guards `send_text`, so it propagates out of `broadcast`
(modelled as `Except.error ()`).  On success returns the final live
set, the successful sends, and the `to_remove` list. -/
def broadcastLiveLoop (msg : OutMsg) (skip : Option Conn) (sendOk : Conn → Bool)
    (initSize : Nat) :
    List Conn → List Conn → List MutEvent →
    Except Unit (List Conn × List (Conn × OutMsg) × List Conn)
  | live, [], _ =>
      if live.length ≠ initSize then .error () else .ok (live, [], [])
  | live, ws :: rest, events =>
      if live.length ≠ initSize then .error ()
      else if some ws = skip then
        broadcastLiveLoop msg skip sendOk initSize live rest events
      else
        let live' := applyEvent live (events.headD .idle)
        match broadcastLiveLoop msg skip sendOk initSize live' rest events.tail with
        | .error e => .error e
        | .ok (finalLive, sent, rem) =>
            if sendOk ws then .ok (finalLive, (ws, msg) :: sent, rem)
            else .ok (finalLive, sent, ws :: rem)

/-- `broadcast(session, message, skip)` (main.py lines 142-153) under a
concurrent-mutation schedule: run the send loop against the live set,
then discard the deferred removals.  A `RuntimeError` from the mutated
set iterator propagates to the caller. -/
def broadcastLive (session : Session) (msg : OutMsg) (skip : Option Conn)
    (sendOk : Conn → Bool) (events : List MutEvent) :
    Except Unit (Session × List (Conn × OutMsg)) :=
  match broadcastLiveLoop msg skip sendOk session.connections.length
      session.connections session.connections events with
  | .error e => .error e
  | .ok (finalLive, sent, rem) =>
      .ok ({ session with connections := finalLive.filter (fun ws => !(rem.contains ws)) },
           sent)

/-- The fan-out the spec describes (spec sections 4.3 and 9, modelled
from the words of the spec for comparison with `broadcastLive`): take
an immutable snapshot of the connection set before iterating, send to
every snapshot member except `skip`, catch individual send failures,
apply removals after the iteration; concurrent mutation never affects
which recipients are attempted and never crashes the fan-out, so the
schedule argument is ignored and the result is always a success. -/
def broadcastSpecSnapshot (session : Session) (msg : OutMsg) (skip : Option Conn)
    (sendOk : Conn → Bool) (_events : List MutEvent) :
    Except Unit (Session × List (Conn × OutMsg)) :=
  .ok (broadcast session msg skip sendOk)

/-- The guard-relevant primitive operations appearing in main.py. -/
inductive GOp where
  | mapInsert
  | mapLookup
  | mapPop
  | connAdd
  | connDiscard
  | connClear
  | connIterRead
  | sessionFieldWrite
  | sessionFieldRead
  | send
  | close
deriving Repr, DecidableEq

/-- One step of a function body: which operation runs and whether
`store.lock` (the only mutual-exclusion guard in main.py, line 51) is
held while it runs. -/
structure GStep where
  op : GOp
  underLock : Bool
deriving Repr, DecidableEq

/-- `create_session` (main.py lines 53-58): the dict insert happens
inside `async with self.lock`. -/
def create_session_steps : List GStep :=
  [⟨.mapInsert, true⟩]

/-- `get_session` (main.py lines 60-64): the dict read takes no lock. -/
def get_session_steps : List GStep :=
  [⟨.mapLookup, false⟩]

/-- `end_session` (main.py lines 66-81): lookup, `ended = True`, the
`list(session.connections)` capture, the clear and the pop all happen
inside `async with self.lock`; the sends and closes happen after the
lock is released. -/
def end_session_steps : List GStep :=
  [⟨.mapLookup, true⟩, ⟨.sessionFieldWrite, true⟩, ⟨.connIterRead, true⟩,
   ⟨.connClear, true⟩, ⟨.mapPop, true⟩, ⟨.send, false⟩, ⟨.close, false⟩]

/-- `expire_stale_once` (main.py lines 83-94): iteration, `ended = True`
and the pops all happen inside `async with self.lock`. -/
def expire_stale_once_steps : List GStep :=
  [⟨.mapLookup, true⟩, ⟨.sessionFieldWrite, true⟩, ⟨.mapPop, true⟩]

/-- `broadcast` (main.py lines 142-153): it takes no lock — the
iteration over `session.connections`, the sends, and the discards of
failed connections all run without `store.lock`. -/
def broadcast_steps : List GStep :=
  [⟨.connIterRead, false⟩, ⟨.send, false⟩, ⟨.connDiscard, false⟩]

/-- `websocket_endpoint` (main.py lines 182-227): none of its
operations take `store.lock` — the lookup (line 184), the
`connections.add` (line 186), the reads of `language`/`code` used to
build the `init` and broadcast payloads (lines 187, 201, 205,
207-210), the writes of `last_active`/`code`/`language` (lines 191,
200, 204), and the `connections.discard` calls (lines 218, 221, 225)
all run unguarded. -/
def websocket_endpoint_steps : List GStep :=
  [⟨.mapLookup, false⟩, ⟨.connAdd, false⟩, ⟨.sessionFieldRead, false⟩,
   ⟨.send, false⟩, ⟨.sessionFieldWrite, false⟩, ⟨.sessionFieldRead, false⟩,
   ⟨.connDiscard, false⟩]

/-- Is this operation a mutation of a connection set? -/
def isConnMutation : GOp → Bool
  | .connAdd => true
  | .connDiscard => true
  | .connClear => true
  | _ => false

/-- Is this operation a read performed to construct a broadcast (the
iteration over the connection set, or a session-field read feeding an
outbound payload)? -/
def isBroadcastRead : GOp → Bool
  | .connIterRead => true
  | .sessionFieldRead => true
  | _ => false

/-- The discipline claimed by the spec: every connection-set mutation
and every broadcast-construction read runs under the guard. -/
def guardDiscipline (tr : List GStep) : Prop :=
  ∀ a ∈ tr, (isConnMutation a.op = true ∨ isBroadcastRead a.op = true) →
    a.underLock = true

instance (tr : List GStep) : Decidable (guardDiscipline tr) := by
  unfold guardDiscipline; infer_instance

/-- Modelled from the spec (section 6): an inbound frame fails to
parse as the expected envelope when it does not decode to a JSON
object (the envelope is a JSON object with a `type` discriminant). -/
def failsEnvelope : RawMsg → Prop
  | .invalid => True
  | .nonObject => True
  | .obj _ => False

/-- Concrete two-session store used by the sweep witness: session "a"
is connection-less and idle since time 0, session "b" has connection 7. -/
def wStoreSweep : Store :=
  [("a", { session_id := "a" }), ("b", { session_id := "b", connections := [7] })]

/-- Concrete one-session store used by the end-session witness. -/
def wStoreEnd : Store :=
  [("a", { session_id := "a", connections := [1, 2] })]

/-- Concrete session used by the join witness. -/
def wSessionJoin : Session := { session_id := "a", code := "x" }

/-- Concrete one-session store used by the join witness. -/
def wStoreJoin : Store := [("a", wSessionJoin)]

/-- Concrete two-connection session used by the edit witness. -/
def wSessionEdit : Session := { session_id := "s", connections := [1, 2] }

/-- Concrete two-connection session used by the run witness. -/
def wSessionRun : Session :=
  { session_id := "s", code := "print(1)", connections := [1, 2] }

/-- Concrete two-connection session used by the missing-code edit
witness. -/
def wSessionErase : Session :=
  { session_id := "s", code := "keep me", connections := [1, 2] }

/-- Concrete one-connection session used by the protocol-error
witness. -/
def wSessionErr : Session := { session_id := "s", connections := [4] }

/- Helper lemmas about the association-list store. -/

theorem get?_set_ne (store : Store) (sid k : String) (v : Session) (h : k ≠ sid) :
    (store.set sid v).get? k = store.get? k := by
  induction store with
  | nil => rfl
  | cons p rest ih =>
    obtain ⟨a, b⟩ := p
    by_cases ha : a = sid
    · subst ha
      simp [Store.set, Store.get?, Ne.symm h, ih]
    · by_cases hk : a = k
      · subst hk
        simp [Store.set, Store.get?, ha]
      · simp [Store.set, Store.get?, ha, hk, ih]

theorem get?_pop_self (store : Store) (sid : String) :
    (store.pop sid).get? sid = none := by
  induction store with
  | nil => rfl
  | cons p rest ih =>
    obtain ⟨a, b⟩ := p
    by_cases ha : a = sid
    · subst ha
      simpa [Store.pop] using ih
    · simpa [Store.pop, ha, Store.get?] using ih

theorem get?_pop_ne (store : Store) (sid k : String) (h : k ≠ sid) :
    (store.pop sid).get? k = store.get? k := by
  induction store with
  | nil => rfl
  | cons p rest ih =>
    obtain ⟨a, b⟩ := p
    by_cases ha : a = sid
    · subst ha
      simp [Store.pop, Store.get?, Ne.symm h, ih]
    · by_cases hk : a = k
      · subst hk
        simp [Store.pop, Store.get?, ha, h]
      · simp [Store.pop, Store.get?, ha, hk, ih]

theorem mem_of_get?_eq_some (store : Store) (sid : String) (s : Session)
    (h : store.get? sid = some s) : (sid, s) ∈ store := by
  induction store with
  | nil => simp [Store.get?] at h
  | cons p rest ih =>
    obtain ⟨a, b⟩ := p
    by_cases ha : a = sid
    · simp [Store.get?, ha] at h
      subst ha h
      exact List.mem_cons_self _ _
    · simp [Store.get?, ha] at h
      exact List.mem_cons_of_mem _ (ih h)

theorem get?_eq_some_of_mem (store : Store) (sid : String) (s : Session)
    (hnd : (store.map Prod.fst).Nodup) (h : (sid, s) ∈ store) :
    store.get? sid = some s := by
  induction store with
  | nil => simp at h
  | cons p rest ih =>
    obtain ⟨a, b⟩ := p
    rw [List.map_cons, List.nodup_cons] at hnd
    rcases List.mem_cons.mp h with heq | hmem
    · rw [← heq]
      simp [Store.get?]
    · have ha : ¬ a = sid := by
        intro hh
        exact hnd.1 (hh ▸ List.mem_map.mpr ⟨(sid, s), hmem, rfl⟩)
      simp [Store.get?, ha]
      exact ih hnd.2 hmem

theorem get?_unique (store : Store) (sid : String) (s s' : Session)
    (hnd : (store.map Prod.fst).Nodup) (h : (sid, s) ∈ store)
    (h' : (sid, s') ∈ store) : s = s' := by
  have h1 := get?_eq_some_of_mem store sid s hnd h
  have h2 := get?_eq_some_of_mem store sid s' hnd h'
  rw [h1] at h2
  exact Option.some.inj h2

theorem get?_eq_none_of_not_mem (store : Store) (sid : String)
    (h : ∀ s : Session, (sid, s) ∉ store) : store.get? sid = none := by
  induction store with
  | nil => rfl
  | cons p rest ih =>
    obtain ⟨a, b⟩ := p
    by_cases ha : a = sid
    · subst ha
      exact absurd (List.mem_cons_self (a, b) rest) (h b)
    · simp [Store.get?, ha]
      exact ih fun s hs => h s (List.mem_cons_of_mem _ hs)

theorem mem_broadcastLoop_sent (msg : OutMsg) (skip : Option Conn)
    (sendOk : Conn → Bool) (conns : List Conn) (c : Conn) (m : OutMsg) :
    (c, m) ∈ (broadcastLoop msg skip sendOk conns).1 ↔
      c ∈ conns ∧ some c ≠ skip ∧ sendOk c = true ∧ m = msg := by
  induction conns with
  | nil => simp [broadcastLoop]
  | cons ws rest ih =>
    by_cases h1 : some ws = skip
    · simp only [broadcastLoop, if_pos h1]
      rw [ih]
      constructor
      · rintro ⟨hc, hsk, hok, hm⟩
        exact ⟨List.mem_cons_of_mem _ hc, hsk, hok, hm⟩
      · rintro ⟨hc, hsk, hok, hm⟩
        rcases List.mem_cons.mp hc with rfl | hc'
        · exact absurd h1 hsk
        · exact ⟨hc', hsk, hok, hm⟩
    · by_cases h2 : sendOk ws = true
      · simp only [broadcastLoop, if_neg h1, if_pos h2, List.mem_cons]
        rw [Prod.mk.injEq, ih]
        constructor
        · rintro (⟨rfl, rfl⟩ | ⟨hc, hsk, hok, hm⟩)
          · exact ⟨Or.inl rfl, h1, h2, rfl⟩
          · exact ⟨Or.inr hc, hsk, hok, hm⟩
        · rintro ⟨hc | hc, hsk, hok, hm⟩
          · exact Or.inl ⟨hc, hm⟩
          · exact Or.inr ⟨hc, hsk, hok, hm⟩
      · simp only [broadcastLoop, if_neg h1, if_neg h2]
        rw [ih]
        constructor
        · rintro ⟨hc, hsk, hok, hm⟩
          exact ⟨List.mem_cons_of_mem _ hc, hsk, hok, hm⟩
        · rintro ⟨hc, hsk, hok, hm⟩
          rcases List.mem_cons.mp hc with rfl | hc'
          · exact absurd hok h2
          · exact ⟨hc', hsk, hok, hm⟩

theorem broadcastLoop_allOk (msg : OutMsg) (skip : Option Conn)
    (sendOk : Conn → Bool) (conns : List Conn) (hok : ∀ c, sendOk c = true) :
    (broadcastLoop msg skip sendOk conns).2 = [] := by
  induction conns with
  | nil => rfl
  | cons ws rest ih =>
    by_cases h1 : some ws = skip
    · simpa [broadcastLoop, if_pos h1] using ih
    · simp [broadcastLoop, if_neg h1, hok ws, ih]

theorem sweep_store_eq_filter (now : Nat) (store : Store) :
    (expire_stale_once now store).store =
      store.filter
        (fun p => !(p.2.connections.isEmpty &&
                    decide (INACTIVITY_TIMEOUT ≤ now - p.2.last_active))) := by
  induction store with
  | nil => rfl
  | cons p rest ih =>
    obtain ⟨sid, s⟩ := p
    by_cases h1 : s.connections.isEmpty = true
    · by_cases h2 : INACTIVITY_TIMEOUT ≤ now - s.last_active
      · simp [expire_stale_once, h1, h2, List.filter_cons, ih]
      · simp [expire_stale_once, h1, h2, List.filter_cons, ih]
    · simp [expire_stale_once, h1, List.filter_cons, ih]

theorem expire_cons_retire (now : Nat) (a : String) (b : Session) (rest : Store)
    (h1 : b.connections.isEmpty = true)
    (h2 : INACTIVITY_TIMEOUT ≤ now - b.last_active) :
    expire_stale_once now ((a, b) :: rest) =
      { store := (expire_stale_once now rest).store,
        expired := a :: (expire_stale_once now rest).expired,
        retired := (a, { b with ended := true }) ::
          (expire_stale_once now rest).retired } := by
  simp [expire_stale_once, h1, h2]

theorem expire_cons_keep (now : Nat) (a : String) (b : Session) (rest : Store)
    (h : ¬ (b.connections.isEmpty = true ∧ INACTIVITY_TIMEOUT ≤ now - b.last_active)) :
    expire_stale_once now ((a, b) :: rest) =
      { expire_stale_once now rest with
        store := (a, b) :: (expire_stale_once now rest).store } := by
  by_cases h1 : b.connections.isEmpty = true
  · have h2 : ¬ INACTIVITY_TIMEOUT ≤ now - b.last_active := fun hh => h ⟨h1, hh⟩
    simp [expire_stale_once, h1, h2]
  · have h1' : b.connections.isEmpty = false := by
      revert h1; cases b.connections.isEmpty <;> simp
    simp [expire_stale_once, h1']

theorem mem_sweep_expired (now : Nat) (store : Store) (sid : String) :
    sid ∈ (expire_stale_once now store).expired ↔
      ∃ s : Session, (sid, s) ∈ store ∧ s.connections = [] ∧
        INACTIVITY_TIMEOUT ≤ now - s.last_active := by
  induction store with
  | nil => simp [expire_stale_once]
  | cons p rest ih =>
    obtain ⟨a, b⟩ := p
    by_cases hret : b.connections.isEmpty = true ∧ INACTIVITY_TIMEOUT ≤ now - b.last_active
    · rw [expire_cons_retire now a b rest hret.1 hret.2]
      simp only [List.mem_cons]
      rw [ih]
      constructor
      · rintro (rfl | ⟨s, hs, hse, hst⟩)
        · exact ⟨b, Or.inl rfl, List.isEmpty_iff.mp hret.1, hret.2⟩
        · exact ⟨s, Or.inr hs, hse, hst⟩
      · rintro ⟨s, heq | hmem, hse, hst⟩
        · exact Or.inl (congrArg Prod.fst heq)
        · exact Or.inr ⟨s, hmem, hse, hst⟩
    · rw [expire_cons_keep now a b rest hret]
      rw [ih]
      constructor
      · rintro ⟨s, hs, hse, hst⟩
        exact ⟨s, List.mem_cons_of_mem _ hs, hse, hst⟩
      · rintro ⟨s, hs, hse, hst⟩
        rcases List.mem_cons.mp hs with heq | hmem
        · have hsb : s = b := congrArg Prod.snd heq
          subst hsb
          exact absurd ⟨List.isEmpty_iff.mpr hse, hst⟩ hret
        · exact ⟨s, hmem, hse, hst⟩

theorem mem_sweep_retired (now : Nat) (store : Store) (sid : String) (s : Session)
    (hmem : (sid, s) ∈ store) (h1 : s.connections = [])
    (h2 : INACTIVITY_TIMEOUT ≤ now - s.last_active) :
    (sid, { s with ended := true }) ∈ (expire_stale_once now store).retired := by
  induction store with
  | nil => simp at hmem
  | cons p rest ih =>
    obtain ⟨a, b⟩ := p
    rcases List.mem_cons.mp hmem with heq | hmem'
    · have hsid : sid = a := congrArg Prod.fst heq
      have hsb : s = b := congrArg Prod.snd heq
      subst hsid
      subst hsb
      rw [expire_cons_retire now sid s rest (List.isEmpty_iff.mpr h1) h2]
      exact List.mem_cons_self _ _
    · by_cases hret : b.connections.isEmpty = true ∧
          INACTIVITY_TIMEOUT ≤ now - b.last_active
      · rw [expire_cons_retire now a b rest hret.1 hret.2]
        exact List.mem_cons_of_mem _ (ih hmem')
      · rw [expire_cons_keep now a b rest hret]
        exact ih hmem'

/-- Claim C1 (code bug exhibited): `broadcast` does not iterate over a
snapshot of the connection set taken before iteration begins — it
iterates the live `session.connections` directly.  On a session whose
set is `[0]`, with every send succeeding, a concurrent attach of
connection `1` during the awaited send makes the set iterator raise
`RuntimeError` (set changed size during iteration), which propagates
out of `broadcast`; the snapshot fan-out prescribed by the spec
succeeds on the same input and delivers to connection 0. -/
theorem broadcast_crashes_without_snapshot :
    broadcastLive { session_id := "s", connections := [0] } (.edit "x") none
        (fun _ => true) [.add 1] = .error () ∧
    broadcastSpecSnapshot { session_id := "s", connections := [0] } (.edit "x") none
        (fun _ => true) [.add 1] =
      .ok ({ session_id := "s", connections := [0] }, [(0, .edit "x")]) := by
  constructor <;> rfl

/-- When no concurrent mutation interleaves with the sends, the live
iteration agrees with the snapshot fan-out (sanity link between the two
models of `broadcast`). -/
theorem broadcastLiveLoop_no_events (msg : OutMsg) (skip : Option Conn)
    (sendOk : Conn → Bool) (live : List Conn) :
    ∀ pending : List Conn,
      broadcastLiveLoop msg skip sendOk live.length live pending [] =
        .ok (live, (broadcastLoop msg skip sendOk pending).1,
             (broadcastLoop msg skip sendOk pending).2) := by
  intro pending
  induction pending with
  | nil => simp [broadcastLiveLoop, broadcastLoop]
  | cons ws rest ih =>
    by_cases h1 : some ws = skip
    · simp only [broadcastLiveLoop, broadcastLoop, if_neg (by simp : ¬ live.length ≠ live.length),
        if_pos h1, ih]
    · by_cases h2 : sendOk ws = true
      · simp [broadcastLiveLoop, broadcastLoop, h1, h2, applyEvent, ih]
      · simp [broadcastLiveLoop, broadcastLoop, h1, h2, applyEvent, ih]

/-- Without concurrent mutation `broadcastLive` is exactly the
sequential `broadcast`. -/
theorem broadcastLive_no_mutation (session : Session) (msg : OutMsg)
    (skip : Option Conn) (sendOk : Conn → Bool) :
    broadcastLive session msg skip sendOk [] =
      .ok (broadcast session msg skip sendOk) := by
  simp [broadcastLive, broadcast, broadcastLiveLoop_no_events]

/-- Claim C4: `execute_code` is total — every input produces a
`RunResult` carrying the input language; an unsupported language yields
the descriptive stderr with a result independent of the process
machinery (no process is spawned); a timeout yields the timed-out
stderr; a missing runtime yields the not-available stderr; any other
spawn failure yields the generic execution-error stderr; the timeout
bound is the fixed 10 seconds. -/
theorem execute_code_never_raises_and_classifies (language code : String)
    (outcome : SpawnOutcome) :
    RUN_TIMEOUT = 10 ∧
    (execute_code language code outcome).language = language ∧
    (¬ (language = "python" ∨ language = "javascript") →
       execute_code language code outcome =
         { stdout := "", stderr := "Unsupported language: " ++ language,
           language := language } ∧
       ∀ o : SpawnOutcome,
         execute_code language code o = execute_code language code outcome) ∧
    ((language = "python" ∨ language = "javascript") →
       execute_code language code .timedOut =
         { stdout := "", stderr := "Execution timed out", language := language } ∧
       execute_code language code .fileNotFound =
         { stdout := "", stderr := "Runtime not available for " ++ language,
           language := language } ∧
       ∀ exc, execute_code language code (.otherError exc) =
         { stdout := "", stderr := "Execution error: " ++ exc,
           language := language }) := by
  refine ⟨rfl, ?_, ?_, ?_⟩
  · unfold execute_code
    split
    · cases outcome <;> rfl
    · rfl
  · intro h
    refine ⟨by simp [execute_code, h], fun o => by simp [execute_code, h]⟩
  · intro h
    refine ⟨?_, ?_, fun exc => ?_⟩ <;> (unfold execute_code; rw [if_pos h])

/-- Claim C8 (counterexample): the connection handler mutates the
connection set (attach at line 186, detach at lines 218/221/225) and
reads session fields to build broadcasts without holding `store.lock`,
so the claimed guard discipline fails on the handler trace. -/
theorem guard_discipline_refuted : ¬ guardDiscipline websocket_endpoint_steps := by
  decide

/-- Claim C8 (amended): only the registry-level operations hold the
guard — `create_session`, `end_session` and `expire_stale_once` perform
their map and connection-set mutations under `store.lock` — while every
connection-set mutation and every broadcast-construction read in
`websocket_endpoint` and `broadcast` runs without holding any guard. -/
theorem guard_held_only_in_registry_ops :
    (∀ a ∈ create_session_steps, a.underLock = true) ∧
    (∀ a ∈ end_session_steps, isConnMutation a.op = true → a.underLock = true) ∧
    (∀ a ∈ end_session_steps, a.op = GOp.connIterRead → a.underLock = true) ∧
    (∀ a ∈ expire_stale_once_steps, a.underLock = true) ∧
    (∀ a ∈ websocket_endpoint_steps ++ broadcast_steps,
       (isConnMutation a.op = true ∨ isBroadcastRead a.op = true) →
         a.underLock = false) := by
  decide

/-- Claim C7 (counterexample): a frame that fails to parse as the
expected envelope because it decodes to a non-object JSON value does
not get an error notice — the handler raises and the connection is
detached from the session. -/
theorem non_object_frame_detaches :
    failsEnvelope RawMsg.nonObject ∧
    (handleMessage [] "s" { session_id := "s", connections := [5] } 5
        RawMsg.nonObject (fun _ => true) (SpawnOutcome.completed "" "") 7).sent = [] ∧
    (handleMessage [] "s" { session_id := "s", connections := [5] } 5
        RawMsg.nonObject (fun _ => true) (SpawnOutcome.completed "" "") 7).raised = true ∧
    (handleMessage [] "s" { session_id := "s", connections := [5] } 5
        RawMsg.nonObject (fun _ => true) (SpawnOutcome.completed "" "") 7).continueLoop
      = false ∧
    (handleMessage [] "s" { session_id := "s", connections := [5] } 5
        RawMsg.nonObject (fun _ => true) (SpawnOutcome.completed "" "") 7).session.connections
      = [] := by
  exact ⟨trivial, rfl, rfl, rfl, rfl⟩

/-- Claim C5: a well-formed `edit` frame with code `C` from attached
connection `ws` replaces the session code buffer by `C` in full,
refreshes `last_active`, and (with every send succeeding) delivers an
`edit` notice carrying `C` to every other attached connection; no sent
message is addressed to `ws` and every sent message is the `edit`
notice with `C`. -/
theorem edit_replaces_code_and_notifies_others
    (store : Store) (sid : String) (session : Session) (ws : Conn) (C : String)
    (pl : Option String) (sendOk : Conn → Bool) (outcome : SpawnOutcome)
    (now : Nat) (hok : ∀ c, sendOk c = true) :
    (handleMessage store sid session ws
        (RawMsg.obj { type := some "edit", code := some C, language := pl })
        sendOk outcome now).session.code = C ∧
    (handleMessage store sid session ws
        (RawMsg.obj { type := some "edit", code := some C, language := pl })
        sendOk outcome now).session.last_active = now ∧
    (∀ c ∈ session.connections, c ≠ ws →
       (c, OutMsg.edit C) ∈ (handleMessage store sid session ws
          (RawMsg.obj { type := some "edit", code := some C, language := pl })
          sendOk outcome now).sent) ∧
    (∀ e ∈ (handleMessage store sid session ws
        (RawMsg.obj { type := some "edit", code := some C, language := pl })
        sendOk outcome now).sent, e.1 ≠ ws ∧ e.2 = OutMsg.edit C) ∧
    (handleMessage store sid session ws
        (RawMsg.obj { type := some "edit", code := some C, language := pl })
        sendOk outcome now).continueLoop = true := by
  refine ⟨rfl, rfl, ?_, ?_, rfl⟩
  · intro c hc hne
    show (c, OutMsg.edit C) ∈ (broadcastLoop (OutMsg.edit C) (some ws) sendOk
      session.connections).1
    exact (mem_broadcastLoop_sent _ _ _ _ _ _).mpr
      ⟨hc, fun hh => hne (Option.some.inj hh), hok c, rfl⟩
  · intro e he
    have he' : (e.1, e.2) ∈ (broadcastLoop (OutMsg.edit C) (some ws) sendOk
        session.connections).1 := he
    obtain ⟨_, hsk, _, hm⟩ := (mem_broadcastLoop_sent _ _ _ _ _ _).mp he'
    exact ⟨fun hh => hsk (congrArg some hh), hm⟩

/-- Claim C6: a well-formed `run` frame refreshes `last_active`,
invokes the sandbox with the current session language and code, and
(with every send succeeding) broadcasts the resulting
`run_result{stdout, stderr, language}` notice to every attached
connection, the sender included. -/
theorem run_invokes_sandbox_and_notifies_all
    (store : Store) (sid : String) (session : Session) (ws : Conn)
    (pc pl : Option String) (sendOk : Conn → Bool) (outcome : SpawnOutcome)
    (now : Nat) (hok : ∀ c, sendOk c = true) :
    (handleMessage store sid session ws
        (RawMsg.obj { type := some "run", code := pc, language := pl })
        sendOk outcome now).session.last_active = now ∧
    (∀ c ∈ session.connections,
       (c, OutMsg.runResult (execute_code session.language session.code outcome).stdout
          (execute_code session.language session.code outcome).stderr
          (execute_code session.language session.code outcome).language) ∈
        (handleMessage store sid session ws
          (RawMsg.obj { type := some "run", code := pc, language := pl })
          sendOk outcome now).sent) ∧
    (handleMessage store sid session ws
        (RawMsg.obj { type := some "run", code := pc, language := pl })
        sendOk outcome now).continueLoop = true := by
  refine ⟨rfl, ?_, rfl⟩
  intro c hc
  show _ ∈ (broadcastLoop
    (OutMsg.runResult (execute_code session.language session.code outcome).stdout
      (execute_code session.language session.code outcome).stderr
      (execute_code session.language session.code outcome).language)
    none sendOk session.connections).1
  exact (mem_broadcastLoop_sent _ _ _ _ _ _).mpr
    ⟨hc, fun hh => Option.noConfusion hh, hok c, rfl⟩

/-- Claim C10: a well-formed `edit` frame whose payload lacks the
`code` key replaces the session code buffer by the empty string and
(with every send succeeding) broadcasts an `edit` notice carrying the
empty string to every other attached connection, never to the
sender. -/
theorem edit_without_code_erases_document
    (store : Store) (sid : String) (session : Session) (ws : Conn)
    (pl : Option String) (sendOk : Conn → Bool) (outcome : SpawnOutcome)
    (now : Nat) (hok : ∀ c, sendOk c = true) :
    (handleMessage store sid session ws
        (RawMsg.obj { type := some "edit", code := none, language := pl })
        sendOk outcome now).session.code = "" ∧
    (∀ c ∈ session.connections, c ≠ ws →
       (c, OutMsg.edit "") ∈ (handleMessage store sid session ws
          (RawMsg.obj { type := some "edit", code := none, language := pl })
          sendOk outcome now).sent) ∧
    (∀ e ∈ (handleMessage store sid session ws
        (RawMsg.obj { type := some "edit", code := none, language := pl })
        sendOk outcome now).sent, e.1 ≠ ws ∧ e.2 = OutMsg.edit "") := by
  refine ⟨rfl, ?_, ?_⟩
  · intro c hc hne
    show (c, OutMsg.edit "") ∈ (broadcastLoop (OutMsg.edit "") (some ws) sendOk
      session.connections).1
    exact (mem_broadcastLoop_sent _ _ _ _ _ _).mpr
      ⟨hc, fun hh => hne (Option.some.inj hh), hok c, rfl⟩
  · intro e he
    have he' : (e.1, e.2) ∈ (broadcastLoop (OutMsg.edit "") (some ws) sendOk
        session.connections).1 := he
    obtain ⟨_, hsk, _, hm⟩ := (mem_broadcastLoop_sent _ _ _ _ _ _).mp he'
    exact ⟨fun hh => hsk (congrArg some hh), hm⟩

/-- Claim C7 (amended): an inbound frame that is not valid JSON, or a
JSON object carrying an unrecognized type discriminant, makes the
handler answer the offending connection only with an error notice; the
loop continues, nothing is raised, and the session code, language and
connection set are unchanged by the frame. -/
theorem invalid_or_unknown_errors_sender_only
    (store : Store) (sid : String) (session : Session) (ws : Conn)
    (sendOk : Conn → Bool) (outcome : SpawnOutcome) (now : Nat) (p : Payload)
    (h1 : p.type ≠ some "edit") (h2 : p.type ≠ some "language")
    (h3 : p.type ≠ some "run") (h4 : p.type ≠ some "end") :
    ((handleMessage store sid session ws RawMsg.invalid sendOk outcome now).sent =
       [(ws, OutMsg.error "Invalid message")] ∧
     (handleMessage store sid session ws RawMsg.invalid sendOk outcome now).continueLoop
       = true ∧
     (handleMessage store sid session ws RawMsg.invalid sendOk outcome now).raised
       = false ∧
     (handleMessage store sid session ws RawMsg.invalid sendOk outcome now).session.code
       = session.code ∧
     (handleMessage store sid session ws RawMsg.invalid sendOk outcome now).session.language
       = session.language ∧
     (handleMessage store sid session ws RawMsg.invalid sendOk outcome now).session.connections
       = session.connections) ∧
    ((handleMessage store sid session ws (RawMsg.obj p) sendOk outcome now).sent =
       [(ws, OutMsg.error "Unknown message type")] ∧
     (handleMessage store sid session ws (RawMsg.obj p) sendOk outcome now).continueLoop
       = true ∧
     (handleMessage store sid session ws (RawMsg.obj p) sendOk outcome now).raised
       = false ∧
     (handleMessage store sid session ws (RawMsg.obj p) sendOk outcome now).session.code
       = session.code ∧
     (handleMessage store sid session ws (RawMsg.obj p) sendOk outcome now).session.language
       = session.language ∧
     (handleMessage store sid session ws (RawMsg.obj p) sendOk outcome now).session.connections
       = session.connections) := by
  constructor
  · exact ⟨rfl, rfl, rfl, rfl, rfl, rfl⟩
  · simp [handleMessage, h1, h2, h3, h4, Session.touch]

theorem count_pair_map (conns : List Conn) (c : Conn) (m : OutMsg) :
    (conns.map (fun x => (x, m))).count (c, m) = conns.count c := by
  induction conns with
  | nil => rfl
  | cons x xs ih =>
    by_cases hcx : c = x
    · subst hcx
      simp [List.count_cons, ih]
    · simp [List.count_cons, hcx, ih, Prod.mk.injEq]

theorem get?_set_self (store : Store) (sid : String) (s v : Session)
    (h : store.get? sid = some s) : (store.set sid v).get? sid = some v := by
  induction store with
  | nil => simp [Store.get?] at h
  | cons p rest ih =>
    obtain ⟨a, b⟩ := p
    by_cases ha : a = sid
    · subst ha
      simp [Store.set, Store.get?]
    · simp [Store.get?, ha] at h
      simp [Store.set, Store.get?, ha]
      exact ih h

/-- Claim C2: one idle sweep at time `now` retires exactly the sessions
with an empty connection set whose idle time reaches the threshold:
each such session is marked ended, removed from the map, and its id is
returned; every other session — in particular every session with at
least one attached connection, however idle — keeps its exact map entry
and is not reported. -/
theorem sweep_retires_exactly_idle_connectionless
    (store : Store) (now : Nat) (hnd : (store.map Prod.fst).Nodup) :
    (∀ sid s, store.get? sid = some s → s.connections = [] →
       INACTIVITY_TIMEOUT ≤ now - s.last_active →
         sid ∈ (expire_stale_once now store).expired ∧
         (expire_stale_once now store).store.get? sid = none ∧
         (sid, { s with ended := true }) ∈ (expire_stale_once now store).retired) ∧
    (∀ sid s, store.get? sid = some s →
       ¬ (s.connections = [] ∧ INACTIVITY_TIMEOUT ≤ now - s.last_active) →
         (expire_stale_once now store).store.get? sid = some s ∧
         sid ∉ (expire_stale_once now store).expired) ∧
    (∀ sid, sid ∈ (expire_stale_once now store).expired →
       ∃ s, store.get? sid = some s ∧ s.connections = [] ∧
         INACTIVITY_TIMEOUT ≤ now - s.last_active) := by
  have hsub : List.Sublist (expire_stale_once now store).store store := by
    rw [sweep_store_eq_filter]
    exact List.filter_sublist _
  have hnd' : ((expire_stale_once now store).store.map Prod.fst).Nodup :=
    List.Nodup.sublist (List.Sublist.map Prod.fst hsub) hnd
  refine ⟨?_, ?_, ?_⟩
  · intro sid s hget hse hst
    have hmem := mem_of_get?_eq_some store sid s hget
    refine ⟨(mem_sweep_expired now store sid).mpr ⟨s, hmem, hse, hst⟩, ?_,
      mem_sweep_retired now store sid s hmem hse hst⟩
    apply get?_eq_none_of_not_mem
    intro s' hs'
    rw [sweep_store_eq_filter] at hs'
    obtain ⟨hs'mem, hkeep⟩ := List.mem_filter.mp hs'
    have hss : s' = s := get?_unique store sid s' s hnd hs'mem hmem
    subst hss
    simp [List.isEmpty_iff.mpr hse, hst] at hkeep
  · intro sid s hget hnot
    have hmem := mem_of_get?_eq_some store sid s hget
    have hkeep : (!(s.connections.isEmpty &&
        decide (INACTIVITY_TIMEOUT ≤ now - s.last_active))) = true := by
      by_cases he : s.connections = []
      · have hst : ¬ INACTIVITY_TIMEOUT ≤ now - s.last_active :=
          fun hh => hnot ⟨he, hh⟩
        simp [List.isEmpty_iff.mpr he, hst]
      · have hif : s.connections.isEmpty = false := by
          cases hc : s.connections with
          | nil => exact absurd hc he
          | cons x xs => rfl
        simp [hif]
    constructor
    · apply get?_eq_some_of_mem _ sid s hnd'
      rw [sweep_store_eq_filter]
      exact List.mem_filter.mpr ⟨hmem, hkeep⟩
    · intro hexp
      obtain ⟨s'', hmem'', he'', hst''⟩ := (mem_sweep_expired now store sid).mp hexp
      have hss : s'' = s := get?_unique store sid s'' s hnd hmem'' hmem
      subst hss
      exact hnot ⟨he'', hst''⟩
  · intro sid hexp
    obtain ⟨s, hmem, he, hst⟩ := (mem_sweep_expired now store sid).mp hexp
    exact ⟨s, get?_eq_some_of_mem store sid s hnd hmem, he, hst⟩

/-- Claim C3: ending a session is idempotent — a no-op when the id is
absent; otherwise the Session object ends with `ended = true` and an
empty connection set, the map entry is removed (so lookup afterwards
fails with the not-found error), exactly one `ended{reason}` notice
goes to each captured connection followed by its close (all sends
succeeding), failures being swallowed per connection, and no other map
entry is affected. -/
theorem end_session_idempotent_and_notifies_each_once
    (store : Store) (sid : String) (reason : String) (sendOk : Conn → Bool)
    (hok : ∀ c, sendOk c = true) :
    (store.get? sid = none →
       end_session store sid reason sendOk =
         { store := store, endedSession := none, sent := [], closed := [] }) ∧
    (∀ s, store.get? sid = some s →
       (end_session store sid reason sendOk).endedSession =
         some { s with ended := true, connections := [] } ∧
       (end_session store sid reason sendOk).store.get? sid = none ∧
       get_session (end_session store sid reason sendOk).store sid =
         Except.error "Session not found or expired" ∧
       (end_session store sid reason sendOk).sent =
         s.connections.map (fun c => (c, OutMsg.ended reason)) ∧
       (s.connections.Nodup → ∀ c ∈ s.connections,
         ((end_session store sid reason sendOk).sent).count
           (c, OutMsg.ended reason) = 1) ∧
       (end_session store sid reason sendOk).closed = s.connections ∧
       (∀ k, k ≠ sid →
         (end_session store sid reason sendOk).store.get? k = store.get? k)) := by
  constructor
  · intro hnone
    simp [end_session, hnone]
  · intro s hs
    have hfilter : s.connections.filter sendOk = s.connections :=
      List.filter_eq_self.mpr (fun a _ => hok a)
    have hstore : (end_session store sid reason sendOk).store = store.pop sid := by
      simp [end_session, hs]
    refine ⟨by simp [end_session, hs], ?_, ?_, ?_, ?_, ?_, ?_⟩
    · rw [hstore]; exact get?_pop_self store sid
    · unfold get_session
      rw [hstore, get?_pop_self]
    · simp [end_session, hs, hfilter]
    · intro hnd c hc
      have hsent : (end_session store sid reason sendOk).sent =
          s.connections.map (fun c => (c, OutMsg.ended reason)) := by
        simp [end_session, hs, hfilter]
      rw [hsent, count_pair_map]
      exact List.count_eq_one_of_mem hnd hc
    · simp [end_session, hs, hfilter]
    · intro k hk
      rw [hstore]
      exact get?_pop_ne store sid k hk

/-- Claim C9: joining an existing, non-ended session refreshes only its
`last_active` timestamp (to the current monotonic time) and returns a
snapshot carrying the pre-existing id, language and code; code,
language, connection set and the ended flag are exactly as before, the
registry maps the id to the touched session, and every other map entry
is untouched. -/
theorem join_refreshes_last_active_only
    (store : Store) (sid : String) (s : Session) (now : Nat)
    (hs : store.get? sid = some s) (hended : s.ended = false) :
    join_session store sid now =
      Except.ok (store.set sid (s.touch now),
        { session_id := s.session_id, language := s.language, code := s.code }) ∧
    (s.touch now).code = s.code ∧
    (s.touch now).language = s.language ∧
    (s.touch now).connections = s.connections ∧
    (s.touch now).ended = s.ended ∧
    (s.touch now).last_active = now ∧
    (store.set sid (s.touch now)).get? sid = some (s.touch now) ∧
    (∀ k, k ≠ sid → (store.set sid (s.touch now)).get? k = store.get? k) := by
  refine ⟨?_, rfl, rfl, rfl, rfl, rfl, get?_set_self store sid s _ hs,
    fun k hk => get?_set_ne store sid k _ hk⟩
  simp [join_session, get_session, hs, hended, Session.touch]

/-- Witness for claim C2: the concrete two-session store at time 900
(the threshold is 900 seconds) — the connection-less idle session is
retired, the connected one survives. -/
theorem sweep_retires_witness :
    ((wStoreSweep.map Prod.fst).Nodup) ∧
    ((∀ sid s, wStoreSweep.get? sid = some s → s.connections = [] →
        INACTIVITY_TIMEOUT ≤ 900 - s.last_active →
          sid ∈ (expire_stale_once 900 wStoreSweep).expired ∧
          (expire_stale_once 900 wStoreSweep).store.get? sid = none ∧
          (sid, { s with ended := true }) ∈
            (expire_stale_once 900 wStoreSweep).retired) ∧
     (∀ sid s, wStoreSweep.get? sid = some s →
        ¬ (s.connections = [] ∧ INACTIVITY_TIMEOUT ≤ 900 - s.last_active) →
          (expire_stale_once 900 wStoreSweep).store.get? sid = some s ∧
          sid ∉ (expire_stale_once 900 wStoreSweep).expired) ∧
     (∀ sid, sid ∈ (expire_stale_once 900 wStoreSweep).expired →
        ∃ s, wStoreSweep.get? sid = some s ∧ s.connections = [] ∧
          INACTIVITY_TIMEOUT ≤ 900 - s.last_active)) :=
  ⟨by decide, sweep_retires_exactly_idle_connectionless wStoreSweep 900 (by decide)⟩

/-- Witness for claim C3: ending the concrete one-session store whose
session has connections 1 and 2, every send succeeding. -/
theorem end_session_witness :
    (∀ c : Conn, (fun _ : Conn => true) c = true) ∧
    ((wStoreEnd.get? "a" = none →
        end_session wStoreEnd "a" "bye" (fun _ => true) =
          { store := wStoreEnd, endedSession := none, sent := [], closed := [] }) ∧
     (∀ s, wStoreEnd.get? "a" = some s →
        (end_session wStoreEnd "a" "bye" (fun _ => true)).endedSession =
          some { s with ended := true, connections := [] } ∧
        (end_session wStoreEnd "a" "bye" (fun _ => true)).store.get? "a" = none ∧
        get_session (end_session wStoreEnd "a" "bye" (fun _ => true)).store "a" =
          Except.error "Session not found or expired" ∧
        (end_session wStoreEnd "a" "bye" (fun _ => true)).sent =
          s.connections.map (fun c => (c, OutMsg.ended "bye")) ∧
        (s.connections.Nodup → ∀ c ∈ s.connections,
          ((end_session wStoreEnd "a" "bye" (fun _ => true)).sent).count
            (c, OutMsg.ended "bye") = 1) ∧
        (end_session wStoreEnd "a" "bye" (fun _ => true)).closed = s.connections ∧
        (∀ k, k ≠ "a" →
          (end_session wStoreEnd "a" "bye" (fun _ => true)).store.get? k =
            wStoreEnd.get? k))) :=
  ⟨fun _ => rfl,
   end_session_idempotent_and_notifies_each_once wStoreEnd "a" "bye"
     (fun _ => true) (fun _ => rfl)⟩

/-- Witness for claim C5: a concrete edit from connection 1 of the
two-connection session. -/
theorem edit_witness :
    (∀ c : Conn, (fun _ : Conn => true) c = true) ∧
    ((handleMessage [] "s" wSessionEdit 1
        (RawMsg.obj { type := some "edit", code := some "print(1)", language := none })
        (fun _ => true) (SpawnOutcome.completed "" "") 3).session.code = "print(1)" ∧
     (handleMessage [] "s" wSessionEdit 1
        (RawMsg.obj { type := some "edit", code := some "print(1)", language := none })
        (fun _ => true) (SpawnOutcome.completed "" "") 3).session.last_active = 3 ∧
     (∀ c ∈ wSessionEdit.connections, c ≠ 1 →
        (c, OutMsg.edit "print(1)") ∈ (handleMessage [] "s" wSessionEdit 1
          (RawMsg.obj { type := some "edit", code := some "print(1)", language := none })
          (fun _ => true) (SpawnOutcome.completed "" "") 3).sent) ∧
     (∀ e ∈ (handleMessage [] "s" wSessionEdit 1
        (RawMsg.obj { type := some "edit", code := some "print(1)", language := none })
        (fun _ => true) (SpawnOutcome.completed "" "") 3).sent,
        e.1 ≠ 1 ∧ e.2 = OutMsg.edit "print(1)") ∧
     (handleMessage [] "s" wSessionEdit 1
        (RawMsg.obj { type := some "edit", code := some "print(1)", language := none })
        (fun _ => true) (SpawnOutcome.completed "" "") 3).continueLoop = true) :=
  ⟨fun _ => rfl,
   edit_replaces_code_and_notifies_others [] "s" wSessionEdit 1 "print(1)" none
     (fun _ => true) (SpawnOutcome.completed "" "") 3 (fun _ => rfl)⟩

/-- Witness for claim C6: a concrete run on the two-connection session
whose subprocess completes with output. -/
theorem run_witness :
    (∀ c : Conn, (fun _ : Conn => true) c = true) ∧
    ((handleMessage [] "s" wSessionRun 1
        (RawMsg.obj { type := some "run", code := none, language := none })
        (fun _ => true) (SpawnOutcome.completed "1\n" "") 3).session.last_active = 3 ∧
     (∀ c ∈ wSessionRun.connections,
        (c, OutMsg.runResult
          (execute_code wSessionRun.language wSessionRun.code
            (SpawnOutcome.completed "1\n" "")).stdout
          (execute_code wSessionRun.language wSessionRun.code
            (SpawnOutcome.completed "1\n" "")).stderr
          (execute_code wSessionRun.language wSessionRun.code
            (SpawnOutcome.completed "1\n" "")).language) ∈
        (handleMessage [] "s" wSessionRun 1
          (RawMsg.obj { type := some "run", code := none, language := none })
          (fun _ => true) (SpawnOutcome.completed "1\n" "") 3).sent) ∧
     (handleMessage [] "s" wSessionRun 1
        (RawMsg.obj { type := some "run", code := none, language := none })
        (fun _ => true) (SpawnOutcome.completed "1\n" "") 3).continueLoop = true) :=
  ⟨fun _ => rfl,
   run_invokes_sandbox_and_notifies_all [] "s" wSessionRun 1 none none
     (fun _ => true) (SpawnOutcome.completed "1\n" "") 3 (fun _ => rfl)⟩

/-- Witness for claim C10: a concrete edit frame lacking the code key
erases the document of the two-connection session. -/
theorem edit_without_code_witness :
    (∀ c : Conn, (fun _ : Conn => true) c = true) ∧
    ((handleMessage [] "s" wSessionErase 1
        (RawMsg.obj { type := some "edit", code := none, language := none })
        (fun _ => true) (SpawnOutcome.completed "" "") 3).session.code = "" ∧
     (∀ c ∈ wSessionErase.connections, c ≠ 1 →
        (c, OutMsg.edit "") ∈ (handleMessage [] "s" wSessionErase 1
          (RawMsg.obj { type := some "edit", code := none, language := none })
          (fun _ => true) (SpawnOutcome.completed "" "") 3).sent) ∧
     (∀ e ∈ (handleMessage [] "s" wSessionErase 1
        (RawMsg.obj { type := some "edit", code := none, language := none })
        (fun _ => true) (SpawnOutcome.completed "" "") 3).sent,
        e.1 ≠ 1 ∧ e.2 = OutMsg.edit "")) :=
  ⟨fun _ => rfl,
   edit_without_code_erases_document [] "s" wSessionErase 1 none
     (fun _ => true) (SpawnOutcome.completed "" "") 3 (fun _ => rfl)⟩

/-- Witness for claim C7 (amended): a concrete unrecognized
discriminant and a concrete invalid frame, on the one-connection
session. -/
theorem invalid_or_unknown_witness :
    (some "zap" : Option String) ≠ some "edit" ∧
    (some "zap" : Option String) ≠ some "language" ∧
    (some "zap" : Option String) ≠ some "run" ∧
    (some "zap" : Option String) ≠ some "end" ∧
    (((handleMessage [] "s" wSessionErr 4 RawMsg.invalid (fun _ => true)
        (SpawnOutcome.completed "" "") 3).sent =
        [(4, OutMsg.error "Invalid message")] ∧
      (handleMessage [] "s" wSessionErr 4 RawMsg.invalid (fun _ => true)
        (SpawnOutcome.completed "" "") 3).continueLoop = true ∧
      (handleMessage [] "s" wSessionErr 4 RawMsg.invalid (fun _ => true)
        (SpawnOutcome.completed "" "") 3).raised = false ∧
      (handleMessage [] "s" wSessionErr 4 RawMsg.invalid (fun _ => true)
        (SpawnOutcome.completed "" "") 3).session.code = wSessionErr.code ∧
      (handleMessage [] "s" wSessionErr 4 RawMsg.invalid (fun _ => true)
        (SpawnOutcome.completed "" "") 3).session.language = wSessionErr.language ∧
      (handleMessage [] "s" wSessionErr 4 RawMsg.invalid (fun _ => true)
        (SpawnOutcome.completed "" "") 3).session.connections
        = wSessionErr.connections) ∧
     ((handleMessage [] "s" wSessionErr 4
        (RawMsg.obj { type := some "zap", code := none, language := none })
        (fun _ => true) (SpawnOutcome.completed "" "") 3).sent =
        [(4, OutMsg.error "Unknown message type")] ∧
      (handleMessage [] "s" wSessionErr 4
        (RawMsg.obj { type := some "zap", code := none, language := none })
        (fun _ => true) (SpawnOutcome.completed "" "") 3).continueLoop = true ∧
      (handleMessage [] "s" wSessionErr 4
        (RawMsg.obj { type := some "zap", code := none, language := none })
        (fun _ => true) (SpawnOutcome.completed "" "") 3).raised = false ∧
      (handleMessage [] "s" wSessionErr 4
        (RawMsg.obj { type := some "zap", code := none, language := none })
        (fun _ => true) (SpawnOutcome.completed "" "") 3).session.code
        = wSessionErr.code ∧
      (handleMessage [] "s" wSessionErr 4
        (RawMsg.obj { type := some "zap", code := none, language := none })
        (fun _ => true) (SpawnOutcome.completed "" "") 3).session.language
        = wSessionErr.language ∧
      (handleMessage [] "s" wSessionErr 4
        (RawMsg.obj { type := some "zap", code := none, language := none })
        (fun _ => true) (SpawnOutcome.completed "" "") 3).session.connections
        = wSessionErr.connections)) :=
  ⟨by decide, by decide, by decide, by decide,
   invalid_or_unknown_errors_sender_only [] "s" wSessionErr 4 (fun _ => true)
     (SpawnOutcome.completed "" "") 3
     { type := some "zap", code := none, language := none }
     (by decide) (by decide) (by decide) (by decide)⟩

/-- Witness for claim C9: joining the concrete one-session store at
time 9 refreshes only the timestamp. -/
theorem join_witness :
    (wStoreJoin.get? "a" = some wSessionJoin) ∧
    wSessionJoin.ended = false ∧
    (join_session wStoreJoin "a" 9 =
       Except.ok (wStoreJoin.set "a" (wSessionJoin.touch 9),
         { session_id := wSessionJoin.session_id,
           language := wSessionJoin.language, code := wSessionJoin.code }) ∧
     (wSessionJoin.touch 9).code = wSessionJoin.code ∧
     (wSessionJoin.touch 9).language = wSessionJoin.language ∧
     (wSessionJoin.touch 9).connections = wSessionJoin.connections ∧
     (wSessionJoin.touch 9).ended = wSessionJoin.ended ∧
     (wSessionJoin.touch 9).last_active = 9 ∧
     (wStoreJoin.set "a" (wSessionJoin.touch 9)).get? "a" =
       some (wSessionJoin.touch 9) ∧
     (∀ k, k ≠ "a" →
       (wStoreJoin.set "a" (wSessionJoin.touch 9)).get? k = wStoreJoin.get? k)) :=
  ⟨rfl, rfl,
   join_refreshes_last_active_only wStoreJoin "a" wSessionJoin 9 rfl rfl⟩

end Collab
